import Mathlib

/-!
Verification of the Ecolive dashboard (`src/script.js`).

We shallow-embed the entity model (`Sensor` / `TemperatureSensor`), the
localStorage persistence adapter (`getAllSensors` / `saveAllSensors`), the
checkbox toggle controller (`toggleSensor`), the per-row delete action of
`renderManageList`, and the weather classification of `renderCityView`.

JS numbers are modelled as rationals (`ℚ`).  A JS value that can be either a
number or a string (the sensor `value` field: `toFixed` returns a string) is
modelled by the sum type `SVal`.  Stored records come from `JSON.parse` of the
collection this app writes, so each optional field is a value of its JSON type
or absent; absence is modelled with `Option`.  For the record's `name` field
both the absent value and `""` are falsy and flow identically through every
read (`obj.name && …` and the constructor argument), so both are modelled as
`""`.
-/

namespace Ecolive

/-- A JS value stored in the sensor `value` field: a number or a string. -/
inductive SVal where
  | num (q : ℚ)
  | str (s : String)
deriving DecidableEq, Repr

/-- `true` exactly on the number alternative. -/
def SVal.isNum : SVal → Bool
  | .num _ => true
  | .str _ => false

/-- The fields of the base `Sensor` class (`script.js` lines 3-27):
private `#name`/`#value` plus public `description`, `city`, `lat`, `lon`. -/
structure Sensor where
  name : String
  value : SVal
  description : String
  city : String
  lat : Option ℚ
  lon : Option ℚ
deriving DecidableEq, Repr

/-- An in-memory instance: either a base `Sensor` or a `TemperatureSensor`
(which adds the `unit` field, `script.js` lines 30-42). -/
inductive Entity where
  | base (s : Sensor)
  | temp (s : Sensor) (unit : String)
deriving DecidableEq, Repr

/-- The underlying `Sensor` fields of an instance. -/
def Entity.sensor : Entity → Sensor
  | .base s => s
  | .temp s _ => s

/-- `getName()` accessor. -/
def Entity.getName (e : Entity) : String := e.sensor.name

/-- `getValue()` accessor. -/
def Entity.getValue (e : Entity) : SVal := e.sensor.value

/-- `true` exactly on `TemperatureSensor` instances. -/
def Entity.isTemp : Entity → Bool
  | .base _ => false
  | .temp _ _ => true

/-- The `unit` field of a `TemperatureSensor` instance (`none` on a base
`Sensor`, which has no such field). -/
def Entity.getUnit : Entity → Option String
  | .base _ => none
  | .temp _ u => some u

/-- A stored plain record, as produced by `JSON.parse` on the persisted
array (spec §6: `{name, value, description, city, lat, lon, unit?, type?}`).
`none` models an absent key (or JSON `null` for `lat`/`lon`); a missing
`name` is modelled as `""` (both are falsy and are read identically). -/
structure StoredRec where
  name : String
  value : SVal
  description : Option String
  city : Option String
  lat : Option ℚ
  lon : Option ℚ
  unit : Option String
  type : Option String
deriving DecidableEq, Repr

/-- JS `x || d` for an optional string: absent or `""` (both falsy) give the
default. -/
def jsOrStr (x : Option String) (d : String) : String :=
  match x with
  | none => d
  | some s => if s = "" then d else s

/-- JS `x || null` for an optional number: absent, `null` and the falsy
number `0` all give `null`. -/
def jsOrNull (x : Option ℚ) : Option ℚ :=
  match x with
  | none => none
  | some v => if v = 0 then none else some v

/-- `needle` occurs as a contiguous sublist of the haystack
(JS `String.prototype.includes`). -/
def containsSub (needle : List Char) : List Char → Bool
  | [] => needle.isEmpty
  | c :: rest => needle.isPrefixOf (c :: rest) || containsSub needle rest

/-- JS `hay.includes(needle)`. -/
def strIncludes (needle hay : String) : Bool :=
  containsSub needle.toList hay.toList

/-- JS `String.prototype.toLowerCase` (ASCII case folding suffices for the
literals this program compares against). -/
def jsToLower (s : String) : String :=
  ⟨s.data.map Char.toLower⟩

/-- `Sensor.prototype.toJSON` (`script.js` lines 16-25): the serialized plain
record of a base sensor (no `unit`, no `type` key). -/
def Sensor.toJSON (s : Sensor) : StoredRec :=
  { name := s.name
    value := s.value
    description := some s.description
    city := some s.city
    lat := s.lat
    lon := s.lon
    unit := none
    type := none }

/-- `toJSON` dispatched on the instance shape: `TemperatureSensor.toJSON`
(`script.js` lines 36-41) additionally writes `unit` and the
`type = "temperature"` tag. -/
def Entity.toJSON : Entity → StoredRec
  | .base s => s.toJSON
  | .temp s u => { s.toJSON with unit := some u, type := some "temperature" }

/-- The rehydration discriminator of `getAllSensors` (`script.js` line 56):
`obj.type === "temperature" || (obj.name && obj.name.toLowerCase().includes("temp"))`. -/
def isTempRec (r : StoredRec) : Bool :=
  r.type == some "temperature" || (!(r.name == "") && strIncludes "temp" (jsToLower r.name))

/-- The constructor-argument lists of `getAllSensors` (`script.js` lines
57-59): `obj.description || ""`, `obj.city || ""`, `obj.lat || null`,
`obj.lon || null`; `name` and `value` are passed through raw. -/
def sensorOfRec (r : StoredRec) : Sensor :=
  { name := r.name
    value := r.value
    description := jsOrStr r.description ""
    city := jsOrStr r.city ""
    lat := jsOrNull r.lat
    lon := jsOrNull r.lon }

/-- One step of `getAllSensors`' `map` (`script.js` lines 55-61): rebuild a
`TemperatureSensor` (with `obj.unit || "°C"`) or a base `Sensor`. -/
def entityOfRec (r : StoredRec) : Entity :=
  if isTempRec r then Entity.temp (sensorOfRec r) (jsOrStr r.unit "°C")
  else Entity.base (sensorOfRec r)

/-- `getAllSensors` (`script.js` lines 53-62) on a parsed stored array. -/
def getAllSensors (store : List StoredRec) : List Entity :=
  store.map entityOfRec

/-- `saveAllSensors` (`script.js` lines 64-67): serialize every instance. -/
def saveAllSensors (instances : List Entity) : List StoredRec :=
  instances.map Entity.toJSON

/-- The rain/thunder test of `renderCityView` (`script.js` line 327) on the
weather condition `main` string. -/
def isRain (wmain : String) : Bool :=
  strIncludes "rain" (jsToLower wmain) || strIncludes "thunder" (jsToLower wmain)

/-- The weather analysis of `renderCityView` (`script.js` lines 322-339):
`status` starts as `"Moderate"` and the two guarded branches override it. -/
def classify (temp windSpeed : ℚ) (wmain : String) : String :=
  if 18 ≤ temp ∧ temp ≤ 32 ∧ isRain wmain = false ∧ windSpeed < 10 then
    "Good Condition"
  else if temp > 35 ∨ temp < 5 ∨ isRain wmain = true ∨ windSpeed > 15 then
    "Bad Condition"
  else "Moderate"

/-- The `coord` object of a weather response. -/
structure Coord where
  lat : ℚ
  lon : ℚ
deriving DecidableEq, Repr

/-- The parts of an OpenWeather response that `toggleSensor` reads. -/
structure WeatherData where
  coord : Coord
deriving DecidableEq, Repr

/-- JS `Array.prototype.findIndex`: index of the first element satisfying the
predicate (`none` models the `-1` result). -/
def findIndex (p : α → Bool) : List α → Option Nat
  | [] => none
  | a :: as => if p a then some 0 else (findIndex p as).map (· + 1)

/-- `Number.prototype.toFixed(1)` on the pH draw (`script.js` line 159):
render with one decimal digit.  The result is a STRING (the source does not
coerce it back to a number).  Modelled for the non-negative inputs the draw
produces, by rounding `q * 10` to the nearest integer. -/
def toFixedOne (q : ℚ) : String :=
  let n : ℤ := (q * 10 + 1 / 2).floor
  toString (n / 10) ++ "." ++ toString (n % 10)

/-- The mock value/unit/description generated per category (`script.js`
lines 148-172), with the `Math.random()` draw `r` passed in as a parameter.
Note the Water Quality value is `(…).toFixed(1)` — a string. -/
def mockData (ty : String) (r : ℚ) : SVal × String × String :=
  if ty == "Air Quality" then (.num ((r * 150).floor + 20 : ℤ), "AQI", "PM2.5 Index")
  else if ty == "Water Quality" then (.str (toFixedOne (r * 3 + 6)), "pH", "Acidity Level")
  else if ty == "Soil Quality" then (.num ((r * 100).floor : ℤ), "%", "Moisture Level")
  else if ty == "Ecosystem Health" then (.num ((r * 100).floor : ℤ), "Index", "Biodiversity Score")
  else (.num 0, "", "")

/-- The `new TemperatureSensor(sensorName, value, desc, currentCity,
currentWeatherData.coord.lat, currentWeatherData.coord.lon, unit)` built at
`script.js` line 174. -/
def newSensorFor (city ty : String) (w : WeatherData) (r : ℚ) : Entity :=
  Entity.temp
    { name := city ++ " " ++ ty
      value := (mockData ty r).1
      description := (mockData ty r).2.2
      city := city
      lat := some w.coord.lat
      lon := some w.coord.lon }
    (mockData ty r).2.1

/-- The module-level state `toggleSensor` reads: `currentCity`,
`currentWeatherData`, and the persisted store under `eco_sensors_v1`. -/
structure ToggleState where
  currentCity : Option String
  currentWeatherData : Option WeatherData
  store : List StoredRec
deriving DecidableEq, Repr

/-- The observable outcome of one `toggleSensor` call: the persisted store
after the call, whether `alert` fired, and the checkbox state the handler
itself assigned for this category (`none` when left untouched). -/
structure ToggleResult where
  store : List StoredRec
  alerted : Bool
  checkboxChecked : Option Bool
deriving DecidableEq, Repr

/-- `toggleSensor` (`script.js` lines 128-189).  `fetchResult` is what
`fetchWeatherForCity(currentCity)` would resolve to (`none` = failed fetch);
`r` is the `Math.random()` draw.  Rendering calls are omitted; every path
that reaches line 182 persists via `saveAllSensors`. -/
def toggleSensor (st : ToggleState) (fetchResult : Option WeatherData)
    (ty : String) (isChecked : Bool) (r : ℚ) : ToggleResult :=
  match st.currentCity with
  | none =>
      -- lines 129-134: alert, revert the checkbox, return before any store access
      { store := st.store, alerted := true, checkboxChecked := some (!isChecked) }
  | some city =>
      let allSensors := getAllSensors st.store
      let sensorName := city ++ " " ++ ty
      let existingIdx := findIndex (fun s => s.getName == sensorName) allSensors
      if isChecked then
        match existingIdx with
        | none =>
            -- lines 142-146: lazily fetch weather; bail out before saving on failure
            match (match st.currentWeatherData with
                   | some w => some w
                   | none => fetchResult) with
            | none => { store := st.store, alerted := false, checkboxChecked := none }
            | some w =>
                { store := saveAllSensors (allSensors ++ [newSensorFor city ty w r])
                  alerted := false
                  checkboxChecked := none }
        | some _ =>
            { store := saveAllSensors allSensors, alerted := false, checkboxChecked := none }
      else
        match existingIdx with
        | some i =>
            { store := saveAllSensors (allSensors.eraseIdx i)
              alerted := false
              checkboxChecked := none }
        | none =>
            { store := saveAllSensors allSensors, alerted := false, checkboxChecked := none }

/-- The per-row delete action of `renderManageList` (`script.js` lines
109-117): rehydrate, `splice(idx, 1)`, persist. -/
def deleteRow (store : List StoredRec) (idx : Nat) : List StoredRec :=
  saveAllSensors ((getAllSensors store).eraseIdx idx)

/-- The specialized-shape half of the round-trip equivalence: when the
original is a `TemperatureSensor`, the rehydrated instance must again be a
`TemperatureSensor` with the same unit (re-selected via the stored type
tag); the spec puts no shape requirement on rehydrating a base `Sensor`. -/
def sameTempShape (result original : Entity) : Bool :=
  match original, result with
  | .temp _ u, .temp _ u' => u' == u
  | .temp _ _, .base _ => false
  | .base _, _ => true

/-- Round-trip equivalence of one instance, per the spec's list of fields:
same name, value, description, city, lat, lon, and unit/shape for
temperature instances. -/
def equivEnt (result original : Entity) : Bool :=
  result.getName == original.getName &&
  decide (result.getValue = original.getValue) &&
  result.sensor.description == original.sensor.description &&
  result.sensor.city == original.sensor.city &&
  decide (result.sensor.lat = original.sensor.lat) &&
  decide (result.sensor.lon = original.sensor.lon) &&
  sameTempShape result original

/-- Pointwise round-trip equivalence of two collections. -/
def equivEnts : List Entity → List Entity → Bool
  | [], [] => true
  | a :: as, b :: bs => equivEnt a b && equivEnts as bs
  | _, _ => false

/-- The instances the round-trip does preserve: coordinates that are not the
falsy number `0`, and (for temperature instances) a non-empty unit. -/
def entRoundOk (e : Entity) : Bool :=
  decide (e.sensor.lat ≠ some 0) && decide (e.sensor.lon ≠ some 0) &&
  (match e with
   | .temp _ u => !(u == "")
   | .base _ => true)

lemma jsOrStr_some_empty_default (d : String) : jsOrStr (some d) "" = d := by
  unfold jsOrStr
  split <;> simp_all

lemma jsOrNull_of_ne_zero (x : Option ℚ) (h : x ≠ some 0) : jsOrNull x = x := by
  unfold jsOrNull
  cases x with
  | none => rfl
  | some v =>
      have hv : v ≠ 0 := fun hv0 => h (by rw [hv0])
      simp [hv]

lemma sensor_entityOfRec (r : StoredRec) : (entityOfRec r).sensor = sensorOfRec r := by
  unfold entityOfRec
  split <;> rfl

lemma sensorOfRec_toJSON (s : Sensor) (h1 : s.lat ≠ some 0) (h2 : s.lon ≠ some 0) :
    sensorOfRec s.toJSON = s := by
  unfold sensorOfRec Sensor.toJSON
  simp [jsOrStr_some_empty_default, jsOrNull_of_ne_zero _ h1, jsOrNull_of_ne_zero _ h2]

lemma equivEnt_roundtrip (e : Entity) (h : entRoundOk e = true) :
    equivEnt (entityOfRec e.toJSON) e = true := by
  cases e with
  | base s =>
      unfold entRoundOk at h
      simp only [Bool.and_eq_true, decide_eq_true_eq] at h
      unfold equivEnt Entity.getName Entity.getValue
      rw [sensor_entityOfRec]
      have hs : sensorOfRec (Entity.toJSON (Entity.base s)) = s :=
        sensorOfRec_toJSON s h.1.1 h.1.2
      unfold Entity.toJSON at hs ⊢
      rw [hs]
      unfold sameTempShape
      cases hTemp : entityOfRec s.toJSON <;> simp [Entity.sensor]
  | temp s u =>
      unfold entRoundOk at h
      simp only [Bool.and_eq_true, decide_eq_true_eq, Bool.not_eq_true', beq_eq_false_iff_ne,
        ne_eq] at h
      have hu : u ≠ "" := h.2
      have hrec : entityOfRec (Entity.toJSON (Entity.temp s u))
          = Entity.temp (sensorOfRec (Entity.toJSON (Entity.temp s u))) u := by
        unfold entityOfRec isTempRec Entity.toJSON Sensor.toJSON
        simp [jsOrStr, hu]
      have hs : sensorOfRec (Entity.toJSON (Entity.temp s u)) = s := by
        unfold Entity.toJSON
        have : sensorOfRec ({ s.toJSON with unit := some u, type := some "temperature" } : StoredRec)
            = sensorOfRec s.toJSON := by
          unfold sensorOfRec Sensor.toJSON
          rfl
        rw [this, sensorOfRec_toJSON s h.1.1 h.1.2]
      rw [hrec, hs]
      unfold equivEnt Entity.getName Entity.getValue Entity.sensor sameTempShape
      simp

lemma findIndex_eq_none (p : α → Bool) (l : List α) (h : ∀ a ∈ l, p a = false) :
    findIndex p l = none := by
  induction l with
  | nil => rfl
  | cons a as ih =>
      have ha := h a (by simp)
      simp [findIndex, ha, ih fun x hx => h x (by simp [hx])]

lemma findIndex_append_cons (p : α → Bool) (l₁ : List α) (a : α) (l₂ : List α)
    (h : ∀ x ∈ l₁, p x = false) (ha : p a = true) :
    findIndex p (l₁ ++ a :: l₂) = some l₁.length := by
  induction l₁ with
  | nil => simp [findIndex, ha]
  | cons b bs ih =>
      have hb := h b (by simp)
      have := ih fun x hx => h x (by simp [hx])
      simp [findIndex, hb, this]

lemma eraseIdx_append_middle (l₁ : List α) (a : α) (l₂ : List α) :
    (l₁ ++ a :: l₂).eraseIdx l₁.length = l₁ ++ l₂ := by
  induction l₁ with
  | nil => rfl
  | cons b bs ih => simp [List.eraseIdx, ih]

/-- The truthiness guard on `obj.name` before the substring heuristic is
redundant: the empty name contains no `"temp"` anyway. -/
lemma tempGuard (n : String) :
    (!(n == "") && strIncludes "temp" (jsToLower n)) = strIncludes "temp" (jsToLower n) := by
  by_cases hn : n = ""
  · subst hn; decide
  · simp [hn]

/-- C2.  The weather classification of `renderCityView`: Good Condition iff
the temperature lies in [18, 32], the condition is not rain/thunder, and
wind < 10; otherwise Bad Condition iff temperature > 35, or < 5, or
rain/thunder, or wind > 15; otherwise Moderate.  Including the spec's five
concrete example classifications. -/
theorem C2_classification :
    (∀ (t w : ℚ) (m : String),
      ((classify t w m = "Good Condition") ↔
        (18 ≤ t ∧ t ≤ 32 ∧ isRain m = false ∧ w < 10)) ∧
      ((classify t w m = "Bad Condition") ↔
        (¬(18 ≤ t ∧ t ≤ 32 ∧ isRain m = false ∧ w < 10) ∧
          (t > 35 ∨ t < 5 ∨ isRain m = true ∨ w > 15))) ∧
      ((classify t w m = "Moderate") ↔
        (¬(18 ≤ t ∧ t ≤ 32 ∧ isRain m = false ∧ w < 10) ∧
          ¬(t > 35 ∨ t < 5 ∨ isRain m = true ∨ w > 15)))) ∧
    classify 25 5 "Clear" = "Good Condition" ∧
    (∀ (w : ℚ) (m : String), classify 40 w m = "Bad Condition") ∧
    classify 10 20 "Clear" = "Bad Condition" ∧
    (∀ (w : ℚ), classify 15 w "Rain" = "Bad Condition") ∧
    classify 20 12 "Clear" = "Moderate" := by
  refine ⟨fun t w m => ?_, by decide, fun w m => ?_, by decide, fun w => ?_, by decide⟩
  · unfold classify
    split_ifs with h1 h2
    · exact ⟨iff_of_true rfl h1, iff_of_false (by decide) fun hc => hc.1 h1,
        iff_of_false (by decide) fun hc => hc.1 h1⟩
    · exact ⟨iff_of_false (by decide) h1, iff_of_true rfl ⟨h1, h2⟩,
        iff_of_false (by decide) fun hc => hc.2 h2⟩
    · exact ⟨iff_of_false (by decide) h1, iff_of_false (by decide) fun hc => h2 hc.2,
        iff_of_true rfl ⟨h1, h2⟩⟩
  · unfold classify
    have hg : ¬(18 ≤ (40 : ℚ) ∧ (40 : ℚ) ≤ 32 ∧ isRain m = false ∧ w < 10) :=
      fun h => absurd h.2.1 (by norm_num)
    rw [if_neg hg, if_pos (Or.inl (by norm_num))]
  · unfold classify
    have hr : isRain "Rain" = true := by decide
    have hg : ¬(18 ≤ (15 : ℚ) ∧ (15 : ℚ) ≤ 32 ∧ isRain "Rain" = false ∧ w < 10) :=
      fun h => by rw [hr] at h; exact absurd h.2.2.1 (by decide)
    rw [if_neg hg, if_pos (Or.inr (Or.inr (Or.inl hr)))]

/-- C6.  `getAllSensors` rehydrates a stored record as a `TemperatureSensor`
exactly when the record carries the `type = "temperature"` tag or its name
contains `"temp"` case-insensitively, and as a base `Sensor` otherwise;
absent optional fields default to description `""`, city `""`, lat/lon
`null`, and unit `"°C"`. -/
theorem C6_rehydration :
    (∀ r : StoredRec,
      (entityOfRec r).isTemp
        = (r.type == some "temperature" || strIncludes "temp" (jsToLower r.name))) ∧
    (∀ (n : String) (v : SVal) (ty : Option String),
      entityOfRec ⟨n, v, none, none, none, none, none, ty⟩
        = if ty == some "temperature" || strIncludes "temp" (jsToLower n)
          then Entity.temp ⟨n, v, "", "", none, none⟩ "°C"
          else Entity.base ⟨n, v, "", "", none, none⟩) := by
  constructor
  · intro r
    unfold entityOfRec isTempRec
    rw [tempGuard]
    split_ifs with h
    · simp [Entity.isTemp, h]
    · simp only [Bool.not_eq_true] at h
      simp [Entity.isTemp, h]
  · intro n v ty
    unfold entityOfRec isTempRec
    rw [tempGuard]
    split_ifs with h <;> rfl

/-- The `lat` field written by `toJSON` is the instance's `lat`, for both
shapes. -/
lemma toJSON_lat (e : Entity) : (Entity.toJSON e).lat = e.sensor.lat := by
  cases e <;> rfl

/-- The `lon` field written by `toJSON` is the instance's `lon`, for both
shapes. -/
lemma toJSON_lon (e : Entity) : (Entity.toJSON e).lon = e.sensor.lon := by
  cases e <;> rfl

lemma entityOfRec_lat_of_zero (x : StoredRec) (hx : x.lat = some 0) :
    (entityOfRec x).sensor.lat = none := by
  rw [sensor_entityOfRec]
  show jsOrNull x.lat = none
  rw [hx]
  rfl

lemma entityOfRec_lon_of_zero (x : StoredRec) (hx : x.lon = some 0) :
    (entityOfRec x).sensor.lon = none := by
  rw [sensor_entityOfRec]
  show jsOrNull x.lon = none
  rw [hx]
  rfl

/-- C9.  A stored record whose `lat` or `lon` is exactly `0` (a falsy JS
number) is rehydrated by `getAllSensors` with that coordinate as `null` —
each zero coordinate becomes `null` independently of the other — and an
instance with a zero coordinate does not survive a save/load round-trip
unchanged. -/
theorem C9_zero_coordinate_lost (r : StoredRec) (e : Entity)
    (hr : r.lat = some 0 ∨ r.lon = some 0)
    (he : e.sensor.lat = some 0 ∨ e.sensor.lon = some 0) :
    ((entityOfRec r).sensor.lat = none ∨ (entityOfRec r).sensor.lon = none) ∧
    (r.lat = some 0 → (entityOfRec r).sensor.lat = none) ∧
    (r.lon = some 0 → (entityOfRec r).sensor.lon = none) ∧
    (e.sensor.lat = some 0 → (entityOfRec e.toJSON).sensor.lat = none) ∧
    (e.sensor.lon = some 0 → (entityOfRec e.toJSON).sensor.lon = none) ∧
    (entityOfRec e.toJSON).sensor ≠ e.sensor := by
  refine ⟨?_,
    fun h => entityOfRec_lat_of_zero r h,
    fun h => entityOfRec_lon_of_zero r h,
    fun h => entityOfRec_lat_of_zero e.toJSON (by rw [toJSON_lat]; exact h),
    fun h => entityOfRec_lon_of_zero e.toJSON (by rw [toJSON_lon]; exact h),
    ?_⟩
  · rcases hr with h | h
    · exact Or.inl (entityOfRec_lat_of_zero r h)
    · exact Or.inr (entityOfRec_lon_of_zero r h)
  · intro heq
    rcases he with h | h
    · have hn : (entityOfRec e.toJSON).sensor.lat = none :=
        entityOfRec_lat_of_zero e.toJSON (by rw [toJSON_lat]; exact h)
      rw [heq, h] at hn
      exact Option.noConfusion hn
    · have hn : (entityOfRec e.toJSON).sensor.lon = none :=
        entityOfRec_lon_of_zero e.toJSON (by rw [toJSON_lon]; exact h)
      rw [heq, h] at hn
      exact Option.noConfusion hn

/-- A stored record with a single zero coordinate (an equatorial point:
latitude `0`, longitude `90`) for the C9 witness. -/
def zeroLatRec : StoredRec :=
  ⟨"A", SVal.num 1, none, none, some 0, some 90, none, none⟩

/-- The matching in-memory instance with latitude `0`, longitude `90` for
the C9 witness. -/
def zeroLatEntity : Entity :=
  Entity.base ⟨"A", SVal.num 1, "", "", some 0, some 90⟩

theorem C9_zero_coordinate_lost_witness :
    ((zeroLatRec.lat = some 0 ∨ zeroLatRec.lon = some 0) ∧
      (zeroLatEntity.sensor.lat = some 0 ∨ zeroLatEntity.sensor.lon = some 0)) ∧
    (((entityOfRec zeroLatRec).sensor.lat = none ∨
        (entityOfRec zeroLatRec).sensor.lon = none) ∧
      (zeroLatRec.lat = some 0 → (entityOfRec zeroLatRec).sensor.lat = none) ∧
      (zeroLatRec.lon = some 0 → (entityOfRec zeroLatRec).sensor.lon = none) ∧
      (zeroLatEntity.sensor.lat = some 0 →
        (entityOfRec zeroLatEntity.toJSON).sensor.lat = none) ∧
      (zeroLatEntity.sensor.lon = some 0 →
        (entityOfRec zeroLatEntity.toJSON).sensor.lon = none) ∧
      (entityOfRec zeroLatEntity.toJSON).sensor ≠ zeroLatEntity.sensor) :=
  ⟨⟨Or.inl rfl, Or.inl rfl⟩,
    C9_zero_coordinate_lost zeroLatRec zeroLatEntity (Or.inl rfl) (Or.inl rfl)⟩

/-- The collection refuting C1 as universally stated: a zero latitude and an
empty temperature unit are both normalized away by the round-trip. -/
def roundTripCex : List Entity :=
  [Entity.base ⟨"A", SVal.num 1, "", "", some 0, none⟩,
   Entity.temp ⟨"B", SVal.num 2, "", "", none, none⟩ ""]

/-- C1 counterexample: saving then loading this collection does not
reproduce equivalent entities (the zero latitude becomes `null`, the empty
unit becomes `"°C"`). -/
theorem C1_roundtrip_cex :
    equivEnts (getAllSensors (saveAllSensors roundTripCex)) roundTripCex = false := by
  decide

/-- C1 (amended).  Saving a collection and loading it back reproduces
equivalent entities — same name, value, description, city, lat, lon, and
re-selected `TemperatureSensor` shape with the same unit via the stored type
tag — provided no entity stores the falsy coordinate `0` and no
`TemperatureSensor` has the falsy unit `""`. -/
theorem C1_roundtrip (es : List Entity) (h : es.all entRoundOk = true) :
    equivEnts (getAllSensors (saveAllSensors es)) es = true := by
  induction es with
  | nil => rfl
  | cons e rest ih =>
      rw [List.all_cons, Bool.and_eq_true] at h
      have hrest := ih h.2
      unfold getAllSensors saveAllSensors at hrest ⊢
      simp only [List.map_cons]
      unfold equivEnts
      rw [equivEnt_roundtrip e h.1, hrest]
      rfl

/-- The collection for the C1 witness. -/
def roundTripWit : List Entity :=
  [Entity.base ⟨"Dhaka Air Quality", SVal.num 42, "PM2.5 Index", "Dhaka", some 23, some 90⟩,
   Entity.temp ⟨"Dhaka Temp", SVal.num 30, "", "Dhaka", none, none⟩ "°C"]

theorem C1_roundtrip_witness :
    roundTripWit.all entRoundOk = true ∧
    equivEnts (getAllSensors (saveAllSensors roundTripWit)) roundTripWit = true :=
  ⟨by decide, C1_roundtrip roundTripWit (by decide)⟩

/-- C7.  The per-row delete action removes exactly the entity at the clicked
index and persists the remaining entities unchanged and in order: the new
store is the serialization of the prefix before the index followed by the
suffix after it, and its length drops by exactly one. -/
theorem C7_delete_row (store : List StoredRec) (i : Nat)
    (h : i < (getAllSensors store).length) :
    deleteRow store i
      = saveAllSensors
          ((getAllSensors store).take i ++ (getAllSensors store).drop (i + 1)) ∧
    (deleteRow store i).length = store.length - 1 := by
  constructor
  · unfold deleteRow
    rw [List.eraseIdx_eq_take_drop_succ]
  · have hlen : (getAllSensors store).length = store.length := List.length_map _ _
    have hone := List.length_eraseIdx_add_one h
    unfold deleteRow saveAllSensors
    rw [List.length_map]
    omega

/-- A one-record store for witnesses. -/
def witStore : List StoredRec :=
  [⟨"Paris Soil Quality", SVal.num 55, some "Moisture Level", some "Paris",
    some 48, some 2, none, none⟩]

theorem C7_delete_row_witness :
    0 < (getAllSensors witStore).length ∧
    (deleteRow witStore 0
        = saveAllSensors
            ((getAllSensors witStore).take 0 ++ (getAllSensors witStore).drop 1) ∧
      (deleteRow witStore 0).length = witStore.length - 1) :=
  ⟨by decide, C7_delete_row witStore 0 (by decide)⟩

/-- C8.  Toggling a category with no city selected alerts, reverts the
checkbox to its previous state, and returns before touching the persisted
store. -/
theorem C8_no_city_selected (st : ToggleState) (fr : Option WeatherData)
    (ty : String) (chk : Bool) (r : ℚ) (h : st.currentCity = none) :
    toggleSensor st fr ty chk r
      = { store := st.store, alerted := true, checkboxChecked := some (!chk) } := by
  unfold toggleSensor
  rw [h]

theorem C8_no_city_selected_witness :
    (ToggleState.mk none none witStore).currentCity = none ∧
    toggleSensor ⟨none, none, witStore⟩ none "Air Quality" true 0
      = { store := witStore, alerted := true, checkboxChecked := some false } :=
  ⟨rfl, C8_no_city_selected ⟨none, none, witStore⟩ none "Air Quality" true 0 rfl⟩

/-- C4.  When the weather fetch fails (no cached weather, fetch resolves to
`null`) during a toggle-on with no existing entity of that name, the handler
returns before saving: the persisted store is exactly what it was, no alert
fires, and the checkbox is not rewritten. -/
theorem C4_failed_fetch (store : List StoredRec) (city ty : String) (r : ℚ)
    (h : ∀ e ∈ getAllSensors store, e.getName ≠ city ++ " " ++ ty) :
    toggleSensor ⟨some city, none, store⟩ none ty true r
      = { store := store, alerted := false, checkboxChecked := none } := by
  have hidx : findIndex (fun s => s.getName == city ++ " " ++ ty) (getAllSensors store)
      = none :=
    findIndex_eq_none _ _ fun e he => beq_eq_false_iff_ne.mpr (h e he)
  unfold toggleSensor
  dsimp only
  rw [hidx]
  rfl

theorem C4_failed_fetch_witness :
    (∀ e ∈ getAllSensors witStore, e.getName ≠ "Dhaka" ++ " " ++ "Air Quality") ∧
    toggleSensor ⟨some "Dhaka", none, witStore⟩ none "Air Quality" true 0
      = { store := witStore, alerted := false, checkboxChecked := none } :=
  ⟨by decide, C4_failed_fetch witStore "Dhaka" "Air Quality" 0 (by decide)⟩

/-- C3.  With a selected city and cached weather coordinates, toggling a
category on when no entity carries the name `"<city> <category>"` appends
exactly one new entity with that name — a `TemperatureSensor` with the
category-specific unit and the weather coordinates — and persists; toggling
the category off when exactly the last entity carries that name removes
exactly that entity, persists the rest in order. -/
theorem C3_toggle_category (store store₂ : List StoredRec) (city ty : String)
    (w : WeatherData) (fr fr₂ : Option WeatherData) (r r₂ : ℚ)
    (l : List Entity) (e : Entity)
    (h1 : ∀ x ∈ getAllSensors store, x.getName ≠ city ++ " " ++ ty)
    (h2 : ty = "Air Quality" ∨ ty = "Water Quality" ∨ ty = "Soil Quality" ∨
      ty = "Ecosystem Health")
    (h3 : getAllSensors store₂ = l ++ [e])
    (h4 : e.getName = city ++ " " ++ ty)
    (h5 : ∀ x ∈ l, x.getName ≠ city ++ " " ++ ty) :
    toggleSensor ⟨some city, some w, store⟩ fr ty true r
      = { store := saveAllSensors (getAllSensors store ++ [newSensorFor city ty w r]),
          alerted := false, checkboxChecked := none } ∧
    (newSensorFor city ty w r).getName = city ++ " " ++ ty ∧
    (newSensorFor city ty w r).isTemp = true ∧
    (newSensorFor city ty w r).sensor.city = city ∧
    (newSensorFor city ty w r).sensor.lat = some w.coord.lat ∧
    (newSensorFor city ty w r).sensor.lon = some w.coord.lon ∧
    (newSensorFor city ty w r).getUnit
      = some (if ty = "Air Quality" then "AQI"
          else if ty = "Water Quality" then "pH"
          else if ty = "Soil Quality" then "%" else "Index") ∧
    toggleSensor ⟨some city, some w, store₂⟩ fr₂ ty false r₂
      = { store := saveAllSensors l, alerted := false, checkboxChecked := none } := by
  have hidx : findIndex (fun s => s.getName == city ++ " " ++ ty) (getAllSensors store)
      = none :=
    findIndex_eq_none _ _ fun x hx => beq_eq_false_iff_ne.mpr (h1 x hx)
  have hp : ∀ x ∈ l, (fun s => s.getName == city ++ " " ++ ty) x = false :=
    fun x hx => beq_eq_false_iff_ne.mpr (h5 x hx)
  have he : (fun s => s.getName == city ++ " " ++ ty) e = true := beq_iff_eq.mpr h4
  have hidx₂ : findIndex (fun s => s.getName == city ++ " " ++ ty) (getAllSensors store₂)
      = some l.length := by
    rw [h3]
    exact findIndex_append_cons _ _ _ _ hp he
  refine ⟨?_, rfl, rfl, rfl, rfl, rfl, ?_, ?_⟩
  · unfold toggleSensor
    dsimp only
    rw [hidx]
    rfl
  · show some (mockData ty r).2.1 = _
    rcases h2 with rfl | rfl | rfl | rfl <;> rfl
  · unfold toggleSensor
    dsimp only
    rw [hidx₂, h3]
    dsimp only
    rw [eraseIdx_append_middle, List.append_nil]
    rfl

/-- Concrete stored record for the C3 witness (pre-existing entity to be
removed by toggling the category off). -/
def dhakaAirRec : StoredRec :=
  ⟨"Dhaka Air Quality", SVal.num 42, none, none, none, none, none, none⟩

theorem C3_toggle_category_witness :
    ((∀ x ∈ getAllSensors [], x.getName ≠ "Dhaka" ++ " " ++ "Air Quality") ∧
      ("Air Quality" = "Air Quality" ∨ "Air Quality" = "Water Quality" ∨
        "Air Quality" = "Soil Quality" ∨ "Air Quality" = "Ecosystem Health") ∧
      getAllSensors [dhakaAirRec]
        = [] ++ [Entity.base ⟨"Dhaka Air Quality", SVal.num 42, "", "", none, none⟩] ∧
      (Entity.base ⟨"Dhaka Air Quality", SVal.num 42, "", "", none, none⟩).getName
        = "Dhaka" ++ " " ++ "Air Quality" ∧
      (∀ x ∈ ([] : List Entity), x.getName ≠ "Dhaka" ++ " " ++ "Air Quality")) ∧
    (toggleSensor ⟨some "Dhaka", some ⟨⟨23, 90⟩⟩, []⟩ none "Air Quality" true 0
        = { store := saveAllSensors
              (getAllSensors [] ++ [newSensorFor "Dhaka" "Air Quality" ⟨⟨23, 90⟩⟩ 0]),
            alerted := false, checkboxChecked := none } ∧
      (newSensorFor "Dhaka" "Air Quality" ⟨⟨23, 90⟩⟩ 0).getName
        = "Dhaka" ++ " " ++ "Air Quality" ∧
      (newSensorFor "Dhaka" "Air Quality" ⟨⟨23, 90⟩⟩ 0).isTemp = true ∧
      (newSensorFor "Dhaka" "Air Quality" ⟨⟨23, 90⟩⟩ 0).sensor.city = "Dhaka" ∧
      (newSensorFor "Dhaka" "Air Quality" ⟨⟨23, 90⟩⟩ 0).sensor.lat
        = some (⟨⟨23, 90⟩⟩ : WeatherData).coord.lat ∧
      (newSensorFor "Dhaka" "Air Quality" ⟨⟨23, 90⟩⟩ 0).sensor.lon
        = some (⟨⟨23, 90⟩⟩ : WeatherData).coord.lon ∧
      (newSensorFor "Dhaka" "Air Quality" ⟨⟨23, 90⟩⟩ 0).getUnit
        = some (if "Air Quality" = "Air Quality" then "AQI"
            else if "Air Quality" = "Water Quality" then "pH"
            else if "Air Quality" = "Soil Quality" then "%" else "Index") ∧
      toggleSensor ⟨some "Dhaka", some ⟨⟨23, 90⟩⟩, [dhakaAirRec]⟩ none "Air Quality" false 0
        = { store := saveAllSensors [], alerted := false, checkboxChecked := none }) :=
  ⟨⟨by decide, Or.inl rfl, by decide, rfl, by decide⟩,
    C3_toggle_category [] [dhakaAirRec] "Dhaka" "Air Quality" ⟨⟨23, 90⟩⟩ none none 0 0
      [] (Entity.base ⟨"Dhaka Air Quality", SVal.num 42, "", "", none, none⟩)
      (by decide) (Or.inl rfl) (by decide) rfl (by decide)⟩

/-- C10.  When several persisted entities share the name
`"<city> <category>"`, toggling that category off removes only the first
match in collection order: the persisted result is the serialization of the
collection with exactly that one occurrence dropped, so every later
duplicate stays. -/
theorem C10_first_match_removed (store : List StoredRec) (city ty : String)
    (cw fr : Option WeatherData) (r : ℚ) (l₁ l₂ : List Entity) (e : Entity)
    (h1 : getAllSensors store = l₁ ++ e :: l₂)
    (h2 : e.getName = city ++ " " ++ ty)
    (h3 : ∀ x ∈ l₁, x.getName ≠ city ++ " " ++ ty) :
    (toggleSensor ⟨some city, cw, store⟩ fr ty false r).store
      = saveAllSensors (l₁ ++ l₂) ∧
    (getAllSensors store).length = (l₁ ++ l₂).length + 1 := by
  have hp : ∀ x ∈ l₁, (fun s => s.getName == city ++ " " ++ ty) x = false :=
    fun x hx => beq_eq_false_iff_ne.mpr (h3 x hx)
  have he : (fun s => s.getName == city ++ " " ++ ty) e = true := beq_iff_eq.mpr h2
  have hidx : findIndex (fun s => s.getName == city ++ " " ++ ty) (getAllSensors store)
      = some l₁.length := by
    rw [h1]
    exact findIndex_append_cons _ _ _ _ hp he
  constructor
  · unfold toggleSensor
    dsimp only
    rw [hidx, h1]
    dsimp only
    rw [eraseIdx_append_middle]
    rfl
  · simp [h1]
    omega

theorem C10_first_match_removed_witness :
    (getAllSensors [dhakaAirRec, dhakaAirRec]
        = [] ++ (Entity.base ⟨"Dhaka Air Quality", SVal.num 42, "", "", none, none⟩)
            :: [Entity.base ⟨"Dhaka Air Quality", SVal.num 42, "", "", none, none⟩] ∧
      (Entity.base ⟨"Dhaka Air Quality", SVal.num 42, "", "", none, none⟩).getName
        = "Dhaka" ++ " " ++ "Air Quality" ∧
      (∀ x ∈ ([] : List Entity), x.getName ≠ "Dhaka" ++ " " ++ "Air Quality")) ∧
    ((toggleSensor ⟨some "Dhaka", none, [dhakaAirRec, dhakaAirRec]⟩ none "Air Quality" false 0).store
        = saveAllSensors
            ([] ++ [Entity.base ⟨"Dhaka Air Quality", SVal.num 42, "", "", none, none⟩]) ∧
      (getAllSensors [dhakaAirRec, dhakaAirRec]).length
        = (([] : List Entity)
            ++ [Entity.base ⟨"Dhaka Air Quality", SVal.num 42, "", "", none, none⟩]).length + 1) :=
  ⟨⟨by decide, rfl, by decide⟩,
    C10_first_match_removed [dhakaAirRec, dhakaAirRec] "Dhaka" "Air Quality" none none 0
      [] [Entity.base ⟨"Dhaka Air Quality", SVal.num 42, "", "", none, none⟩]
      (Entity.base ⟨"Dhaka Air Quality", SVal.num 42, "", "", none, none⟩)
      (by decide) rfl (by decide)⟩

/-- C5.  The value of the entity the toggle flow creates for the Water
Quality category is NOT a number: `(…).toFixed(1)` yields a string and the
source never coerces it back (unlike the `+(…)` coercion of
`randomValueForDemo`).  Loading passes the stored value through unchanged,
so the string persists across reloads.  This contradicts the spec's data
model (`value` is a number). -/
theorem C5_water_value_not_number (city : String) (w : WeatherData) (r : ℚ) :
    (newSensorFor city "Water Quality" w r).getValue.isNum = false ∧
    (∀ rec : StoredRec, (entityOfRec rec).getValue = rec.value) := by
  refine ⟨rfl, fun rec => ?_⟩
  show (entityOfRec rec).sensor.value = rec.value
  rw [sensor_entityOfRec]
  rfl

end Ecolive
